import Mathlib

/-!
Verification development for the batch-transcriber core (Tauri backend).
The definitions below are shallow embeddings of the Rust sources under
`src/src-tauri/src`: provider resolution (`providers/resolver.rs`),
worker launching and the stdout event stream (`providers/launcher.rs`),
session manifests (`providers/manifest.rs`) and the session history
store (`commands/history.rs`).  External effects (environment variables,
process spawning, the SQLite engine, the JSON text layer) are made
explicit as arguments or small state types.
-/

/- ===================== String utilities ===================== -/

/-- Unicode White_Space test, the semantics of Rust `char::is_whitespace`
used by `str::trim`. -/
def isRustWs (c : Char) : Bool :=
  let n := c.toNat
  n == 0x9 || n == 0xA || n == 0xB || n == 0xC || n == 0xD || n == 0x20 ||
  n == 0x85 || n == 0xA0 || n == 0x1680 || (0x2000 ≤ n && n ≤ 0x200A) ||
  n == 0x2028 || n == 0x2029 || n == 0x202F || n == 0x205F || n == 0x3000

/-- Rust `str::trim`: drop Unicode whitespace from both ends. -/
def rustTrim (s : String) : String :=
  String.mk (((s.data.dropWhile isRustWs).reverse.dropWhile isRustWs).reverse)

/-- Check that `pat` occurs at the head of `l`. -/
def startsWithChars : List Char → List Char → Bool
  | [], _ => true
  | _ :: _, [] => false
  | a :: pat, b :: l => a == b && startsWithChars pat l

/-- Check that `pat` occurs contiguously anywhere in `l`. -/
def containsSeq (pat : List Char) : List Char → Bool
  | [] => startsWithChars pat []
  | b :: l => startsWithChars pat (b :: l) || containsSeq pat l

/-- Rust `str::contains` with a string pattern (substring search). -/
def containsSub (s pat : String) : Bool :=
  containsSeq pat.data s.data

/-- Rust `str::to_ascii_lowercase`: lowercase ASCII letters, leave the
rest unchanged. -/
def asciiLower (s : String) : String :=
  String.mk (s.data.map fun c =>
    if 'A' ≤ c ∧ c ≤ 'Z' then Char.ofNat (c.toNat + 32) else c)

/- ===================== Runtime registry types ===================== -/

/-- Embeds `providers/registry.rs` `ProviderRuntime`; `PathBuf` fields
are carried as plain strings. -/
inductive ProviderRuntime where
  | SwiftNative (binary_path model_dir : String)
  | PythonUv (package entry_point : String)
  | CloudAPI (base_url : String) (requires_key : Bool)
deriving DecidableEq

def COREML_PROVIDER_ID : String := "coreml-local"

def LEGACY_COREML_PROVIDER_ID : String := "parakeet-coreml"

def WHISPER_OPENAI_PROVIDER_ID : String := "whisper-openai"

def FASTER_WHISPER_PROVIDER_ID : String := "faster-whisper"

def SWIFT_TOOL_NAME : String := "coreml-batch"

/-- Embeds `registry.rs` `normalize_provider_id`. -/
def normalize_provider_id (id : String) : String :=
  if id = LEGACY_COREML_PROVIDER_ID then COREML_PROVIDER_ID else id

/- ===================== Runtime resolver ===================== -/

/-- Embeds `resolver.rs` `ProviderSettings`. -/
structure ProviderSettings where
  swift_binary_override : Option String
  models_root_override : Option String
  check_availability : Bool
deriving DecidableEq

/-- Embeds `resolver.rs` `ProviderError`. -/
inductive ProviderError where
  | NotFound (provider_id : String)
  | Unavailable (provider_id : String)
  | InvalidModel (model : String)
deriving DecidableEq

/-- Ambient process state read by the resolver's default paths and by
availability probing: the `HOME` environment variable
(`lib.rs` `fluid_models_root`), the project root
(`lib.rs` `local_tool_binary_path`), and the registry availability
probe (`registry.rs` `check_available`, which spawns processes). -/
structure ResolveEnv where
  home : Option String
  project_root : Option String
  check_available : ProviderRuntime → Bool

def COREML_V3_FOLDER : String := "parakeet-tdt-0.6b-v3-coreml"

def COREML_V2_FOLDER : String := "parakeet-tdt-0.6b-v2-coreml"

/-- Embeds `resolver.rs` `default_models_root` together with
`lib.rs` `fluid_models_root` which it calls: both read `HOME`. -/
def default_models_root (env : ResolveEnv) : String :=
  match env.home with
  | some home => home ++ "/Library/Application Support/FluidAudio/Models"
  | none => "~/Library/Application Support/FluidAudio/Models"

/-- Embeds `resolver.rs` `default_swift_binary_path` together with
`lib.rs` `local_tool_binary_path` / `worker_dir` which it calls. -/
def default_swift_binary_path (env : ResolveEnv) : String :=
  match env.project_root with
  | some root => root ++ "/swift-worker/.build/release/" ++ SWIFT_TOOL_NAME
  | none => "swift-worker/.build/release/" ++ SWIFT_TOOL_NAME

/-- Embeds `resolver.rs` `validate_model`. -/
def validate_model (model : String) : Except ProviderError String :=
  let trimmed := rustTrim model
  if trimmed.isEmpty || containsSub trimmed ".." || containsSub trimmed "/" ||
      containsSub trimmed "\\" then
    .error (.InvalidModel model)
  else
    .ok trimmed

/-- Embeds `resolver.rs` `resolve_coreml_model_dir`. -/
def resolve_coreml_model_dir (models_root model : String) : String :=
  let normalized := asciiLower (rustTrim model)
  let folder :=
    if normalized = "v3" ∨ normalized = COREML_V3_FOLDER then COREML_V3_FOLDER
    else if normalized = "v2" ∨ normalized = COREML_V2_FOLDER then COREML_V2_FOLDER
    else model
  models_root ++ "/" ++ folder

/-- Embeds `resolver.rs` `resolve_provider`. -/
def resolve_provider (env : ResolveEnv) (id model : String)
    (settings : ProviderSettings) : Except ProviderError ProviderRuntime :=
  let normalized_id := normalize_provider_id id
  match validate_model model with
  | .error e => .error e
  | .ok validated_model =>
    let models_root := settings.models_root_override.getD (default_models_root env)
    let swift_binary := settings.swift_binary_override.getD (default_swift_binary_path env)
    let runtime? : Except ProviderError ProviderRuntime :=
      if normalized_id = COREML_PROVIDER_ID then
        .ok (.SwiftNative swift_binary (resolve_coreml_model_dir models_root validated_model))
      else if normalized_id = WHISPER_OPENAI_PROVIDER_ID then
        .ok (.PythonUv "whisper-batch" "whisper_batch")
      else if normalized_id = FASTER_WHISPER_PROVIDER_ID then
        .ok (.PythonUv "faster-whisper-batch" "faster_whisper_batch")
      else
        .error (.NotFound id)
    match runtime? with
    | .error e => .error e
    | .ok runtime =>
      if settings.check_availability ∧ env.check_available runtime = false then
        .error (.Unavailable id)
      else
        .ok runtime

/-- Decidable equality for `Except` results, used to evaluate outcomes
on concrete inputs. -/
instance instDecidableEqExcept {e a : Type} [DecidableEq e] [DecidableEq a] :
    DecidableEq (Except e a) := fun x y =>
  match x, y with
  | .error u, .error v =>
    if h : u = v then .isTrue (by rw [h]) else .isFalse (fun hc => by cases hc; exact h rfl)
  | .error _, .ok _ => .isFalse (fun hc => by cases hc)
  | .ok _, .error _ => .isFalse (fun hc => by cases hc)
  | .ok u, .ok v =>
    if h : u = v then .isTrue (by rw [h]) else .isFalse (fun hc => by cases hc; exact h rfl)

/- ===================== Worker launcher: commands ===================== -/

/-- Embeds `launcher.rs` `LaunchCommand`. -/
structure LaunchCommand where
  program : String
  args : List String
deriving DecidableEq

/-- Embeds `registry.rs` `worker_project_dir`. -/
def worker_project_dir (package : String) : Option String :=
  if package = "whisper-batch" then some "workers/whisper-batch"
  else if package = "faster-whisper-batch" then some "workers/faster-whisper-batch"
  else none

/-- Embeds `registry.rs` `python_uv_command_args`; `pyprojectExists`
stands for the filesystem check `project_dir.join("pyproject.toml").exists()`. -/
def python_uv_command_args (pyprojectExists : String → Bool)
    (package entry_point : String) (entry_args : List String) : List String :=
  let args :=
    match worker_project_dir package with
    | some project_dir =>
      if pyprojectExists project_dir then
        ["--directory", project_dir, "run", entry_point]
      else
        ["run", "--package", package, entry_point]
    | none => ["run", "--package", package, entry_point]
  args ++ entry_args

/-- Embeds `launcher.rs` `launch_command_for_runtime`. -/
def launch_command_for_runtime (pyprojectExists : String → Bool)
    (runtime : ProviderRuntime) : Option LaunchCommand :=
  match runtime with
  | .SwiftNative binary_path _ => some { program := binary_path, args := [] }
  | .PythonUv package entry_point =>
      some { program := "uv",
             args := python_uv_command_args pyprojectExists package entry_point [] }
  | .CloudAPI _ _ => none

/-- Embeds `launcher.rs` `infer_model_version_from_model_dir`. -/
def infer_model_version_from_model_dir (model_dir : String) : String :=
  let lower := asciiLower model_dir
  if containsSub lower "v2" then "v2" else "v3"

/-- Embeds `launcher.rs` `command_args_for_runtime`. -/
def command_args_for_runtime (pyprojectExists : String → Bool)
    (runtime : ProviderRuntime) (manifest_path output_dir : String) :
    Except String LaunchCommand :=
  match launch_command_for_runtime pyprojectExists runtime with
  | none => .error "Cloud API providers do not support local worker launching"
  | some launch =>
    let launch :=
      match runtime with
      | .SwiftNative _ model_dir =>
          { launch with
            args := launch.args ++
              ["--model-dir", model_dir,
               "--model-version", infer_model_version_from_model_dir model_dir] }
      | _ => launch
    .ok { launch with
          args := launch.args ++
            ["--manifest", manifest_path, "--output-dir", output_dir] }

/- ===================== Worker launcher: admission and stop ===================== -/

/-- Embeds `launcher.rs` `ActiveProcess`, the value held in the global
`ACTIVE_PROCESS` slot; the process handle is carried as an id. -/
structure ActiveProcess where
  session_id : String
  manifest_path : String
  queued_item_ids : List String
  child : Nat
deriving DecidableEq

/-- Outcomes of the external effects `launch` performs, made explicit:
whether the `worker_started` emit succeeds, whether `Command::spawn`
succeeds (and the handle it returns), and whether the stdout/stderr
pipes are captured. -/
structure LaunchEnv where
  emit_started_ok : Bool
  spawn_result : Option Nat
  stdout_ok : Bool
  stderr_ok : Bool

/-- Result of one `launch` call: the returned value, the admission slot
afterwards, and whether a process was spawned during the call. -/
structure LaunchOutcome where
  result : Except String Nat
  active : Option ActiveProcess
  spawned : Bool

/-- Embeds `launcher.rs` `WorkerLauncher::launch` up to registration of
the `ActiveProcess` (the streaming task it then starts is embedded
separately as `process_stdout_lines`).  `active0` is the content of the
`ACTIVE_PROCESS` slot when the call begins. -/
def WorkerLauncher.launch (active0 : Option ActiveProcess) (env : LaunchEnv)
    (session_id manifest_path : String) (queued_item_ids : List String) :
    LaunchOutcome :=
  if active0.isSome then
    { result := .error "A transcription session is already running",
      active := active0, spawned := false }
  else if env.emit_started_ok = false then
    { result := .error "Failed to emit worker_started", active := active0, spawned := false }
  else
    match env.spawn_result with
    | none => { result := .error "Failed to launch worker", active := active0, spawned := false }
    | some child =>
      if env.stdout_ok = false then
        { result := .error "Failed to capture worker stdout", active := active0, spawned := true }
      else if env.stderr_ok = false then
        { result := .error "Failed to capture worker stderr", active := active0, spawned := true }
      else
        { result := .ok child,
          active := some { session_id := session_id, manifest_path := manifest_path,
                           queued_item_ids := queued_item_ids, child := child },
          spawned := true }

/-- Outcomes of the external effects `stop` performs: whether the
SIGTERM delivery succeeds, whether the worker exits within the 5 s
grace period, whether the forced kill succeeds, and whether the two
terminal emits succeed.  Archive failures are only logged by the code
and change no state, so they carry no flag. -/
structure StopEnv where
  sigterm_ok : Bool
  graceful_exit : Bool
  kill_ok : Bool
  emit_stopped_ok : Bool
  emit_summary_ok : Bool

/-- Result of one `stop` call: the returned value, the admission slot
afterwards, how many termination signals were attempted against the
worker, and whether the archival path was reached. -/
structure StopOutcome where
  result : Except String Unit
  active : Option ActiveProcess
  termination_signals : Nat
  archived : Bool

/-- Embeds `launcher.rs` `WorkerLauncher::stop`.  `active0` is the
content of the `ACTIVE_PROCESS` slot when the call begins. -/
def WorkerLauncher.stop (active0 : Option ActiveProcess) (env : StopEnv)
    (session_id : String) : StopOutcome :=
  match active0 with
  | none => { result := .ok (), active := none, termination_signals := 0, archived := false }
  | some a =>
    if a.session_id ≠ session_id then
      { result := .error ("Session mismatch: active=" ++ a.session_id ++
          ", requested=" ++ session_id),
        active := some a, termination_signals := 0, archived := false }
    else if env.sigterm_ok = false then
      { result := .error "Failed to terminate worker", active := some a,
        termination_signals := 1, archived := false }
    else if env.graceful_exit = false ∧ env.kill_ok = false then
      { result := .error "Failed to force kill worker", active := some a,
        termination_signals := 2, archived := false }
    else
      let signals := if env.graceful_exit then 1 else 2
      if env.emit_stopped_ok = false then
        { result := .error "Failed to emit worker_stopped", active := none,
          termination_signals := signals, archived := true }
      else if env.emit_summary_ok = false then
        { result := .error "Failed to emit cancellation summary", active := none,
          termination_signals := signals, archived := true }
      else
        { result := .ok (), active := none, termination_signals := signals, archived := true }

/- ===================== Worker stdout protocol ===================== -/

/-- Embeds `serde_json::Value`: the JSON values exchanged on the worker
protocol boundary.  Numbers are carried as integers; the only
non-integer field of the protocol (`duration_seconds`) is never
interpreted by the claims below. -/
inductive Json where
  | null
  | bool (b : Bool)
  | num (n : Int)
  | str (s : String)
  | arr (elems : List Json)
  | obj (fields : List (String × Json))

/-- Embeds `serde_json::Value::get` on objects (field lookup). -/
def Json.getField : Json → String → Option Json
  | .obj fields, key => (fields.find? (fun kv => kv.1 == key)).map (·.2)
  | _, _ => none

/-- Embeds `serde_json::Value::as_str`. -/
def Json.asStr : Json → Option String
  | .str s => some s
  | _ => none

/-- Embeds `launcher.rs` `parse_worker_line`: blank lines parse to
nothing, other lines go through the JSON parser.  `parseJson` stands
for `serde_json::from_str`, the external text-level parser; `.error`
carries the offending line. -/
def parse_worker_line (parseJson : String → Option Json) (line : String) :
    Except String (Option Json) :=
  if (rustTrim line).isEmpty then .ok none
  else
    match parseJson line with
    | some value => .ok (some value)
    | none => .error line

/-- Events the stream task emits to the application while consuming
worker stdout (`launcher.rs`, the loop in `launch`): every parsed JSON
value is forwarded, and a malformed line is forwarded verbatim as a
`worker_stdout` raw-line event. -/
inductive StreamEvent where
  | forwarded (value : Json)
  | rawLine (line : String)

/-- Embeds one iteration of the stdout loop in `launcher.rs` `launch`:
classify the line, update the accumulated stream state (`update` stands
for the summary / fatal-error / file-outcome bookkeeping, which touches
only internal state), and emit events. -/
def process_stdout_line {σ : Type} (parseJson : String → Option Json)
    (update : σ → Json → σ) (st : σ) (line : String) : σ × List StreamEvent :=
  match parse_worker_line parseJson line with
  | .ok (some value) => (update st value, [.forwarded value])
  | .ok none => (st, [])
  | .error _ => (st, [.rawLine line])

/-- Embeds the whole stdout loop in `launcher.rs` `launch`: fold
`process_stdout_line` over the lines, concatenating emitted events in
arrival order. -/
def process_stdout_lines {σ : Type} (parseJson : String → Option Json)
    (update : σ → Json → σ) (st : σ) : List String → σ × List StreamEvent
  | [] => (st, [])
  | line :: rest =>
    let step := process_stdout_line parseJson update st line
    let tail := process_stdout_lines parseJson update step.1 rest
    (tail.1, step.2 ++ tail.2)

/- ===================== Session manifest store ===================== -/

/-- Embeds `manifest.rs` `TranscriptionSettings`.  `max_retries` is a
Rust `u32`; its range invariant appears as a hypothesis where needed. -/
structure TranscriptionSettings where
  output_format : String
  recursive : Bool
  overwrite : Bool
  max_retries : Nat
  extensions : List String
  ffmpeg_fallback : Bool
  dry_run : Bool
  notifications_enabled : Bool
  notify_on_complete : Bool
  notify_on_error : Bool
deriving DecidableEq

/-- Embeds `manifest.rs` `QueueItem` (`PathBuf` as a string). -/
structure QueueItem where
  id : String
  path : String
  status : String
deriving DecidableEq

/-- Embeds `manifest.rs` `FileEntry`. -/
structure FileEntry where
  id : String
  path : String
  status : String
deriving DecidableEq

/-- Embeds `manifest.rs` `SessionManifest`. -/
structure SessionManifest where
  session_id : String
  created_at : String
  provider : String
  model : String
  output_dir : String
  settings : TranscriptionSettings
  files : List FileEntry
deriving DecidableEq

/-- Embeds `manifest.rs` `default_status`. -/
def default_status : String := "queued"

/-- Embeds the pure core of `manifest.rs` `generate_manifest`: the
manifest value that gets serialized and written.  The fresh UUID from
`Uuid::new_v4().to_string()` and the timestamp from
`Utc::now().to_rfc3339_opts(Millis, true)` are passed in as the
`session_id` / `created_at` arguments. -/
def generate_manifest (session_id created_at : String)
    (provider model output_dir : String) (items : List QueueItem)
    (settings : TranscriptionSettings) : SessionManifest :=
  { session_id := session_id
    created_at := created_at
    provider := provider
    model := model
    output_dir := output_dir
    settings := settings
    files := items.map fun item =>
      { id := item.id
        path := item.path
        status := if (rustTrim item.status).isEmpty then default_status else item.status } }

/- ===================== Manifest JSON serialization ===================== -/

/-- Embeds the serde `Serialize` derive for `TranscriptionSettings`
(camelCase field names). -/
def encodeSettings (s : TranscriptionSettings) : Json :=
  .obj [("outputFormat", .str s.output_format),
        ("recursive", .bool s.recursive),
        ("overwrite", .bool s.overwrite),
        ("maxRetries", .num s.max_retries),
        ("extensions", .arr (s.extensions.map .str)),
        ("ffmpegFallback", .bool s.ffmpeg_fallback),
        ("dryRun", .bool s.dry_run),
        ("notificationsEnabled", .bool s.notifications_enabled),
        ("notifyOnComplete", .bool s.notify_on_complete),
        ("notifyOnError", .bool s.notify_on_error)]

/-- Embeds the serde `Serialize` derive for `FileEntry`. -/
def encodeFileEntry (f : FileEntry) : Json :=
  .obj [("id", .str f.id), ("path", .str f.path), ("status", .str f.status)]

/-- Embeds the serde `Serialize` derive for `SessionManifest`
(camelCase field names), the JSON written by `write_manifest_atomic`. -/
def encodeManifest (m : SessionManifest) : Json :=
  .obj [("sessionId", .str m.session_id),
        ("createdAt", .str m.created_at),
        ("provider", .str m.provider),
        ("model", .str m.model),
        ("outputDir", .str m.output_dir),
        ("settings", encodeSettings m.settings),
        ("files", .arr (m.files.map encodeFileEntry))]

/-- Decode helper: a field that serde requires to be present. -/
def reqField {α : Type} (j : Json) (key : String) (dec : Json → Option α) : Option α :=
  (j.getField key).bind dec

/-- Decode helper: a field with a serde `#[serde(default)]`. -/
def optField {α : Type} (j : Json) (key : String) (dec : Json → Option α) (dflt : α) :
    Option α :=
  match j.getField key with
  | none => some dflt
  | some v => dec v

/-- Embeds serde deserialization of a JSON number into a `bool`. -/
def decBool : Json → Option Bool
  | .bool b => some b
  | _ => none

/-- Embeds serde deserialization of a JSON number into a `u32`. -/
def decU32 : Json → Option Nat
  | .num n => if 0 ≤ n ∧ n ≤ 4294967295 then some n.toNat else none
  | _ => none

/-- Decode each element of a JSON array, failing if any element
fails (serde sequence semantics). -/
def mapDecode {α : Type} (dec : Json → Option α) : List Json → Option (List α)
  | [] => some []
  | j :: rest => do
      let a ← dec j
      let tail ← mapDecode dec rest
      pure (a :: tail)

/-- Embeds serde deserialization of a JSON array of strings. -/
def decStrList : Json → Option (List String)
  | .arr elems => mapDecode Json.asStr elems
  | _ => none

/-- Embeds the serde `Deserialize` derive for `TranscriptionSettings`:
every field has a default, a present field must have the right type. -/
def decodeSettings (j : Json) : Option TranscriptionSettings := do
  let output_format ← optField j "outputFormat" Json.asStr "both"
  let recursive ← optField j "recursive" decBool true
  let overwrite ← optField j "overwrite" decBool false
  let max_retries ← optField j "maxRetries" decU32 0
  let extensions ← optField j "extensions" decStrList ["mp3", "wav", "m4a"]
  let ffmpeg_fallback ← optField j "ffmpegFallback" decBool true
  let dry_run ← optField j "dryRun" decBool false
  let notifications_enabled ← optField j "notificationsEnabled" decBool true
  let notify_on_complete ← optField j "notifyOnComplete" decBool true
  let notify_on_error ← optField j "notifyOnError" decBool true
  pure { output_format := output_format, recursive := recursive, overwrite := overwrite,
         max_retries := max_retries, extensions := extensions,
         ffmpeg_fallback := ffmpeg_fallback, dry_run := dry_run,
         notifications_enabled := notifications_enabled,
         notify_on_complete := notify_on_complete, notify_on_error := notify_on_error }

/-- Embeds the serde `Deserialize` derive for `FileEntry`: all three
fields are required. -/
def decodeFileEntry (j : Json) : Option FileEntry := do
  let id ← reqField j "id" Json.asStr
  let path ← reqField j "path" Json.asStr
  let status ← reqField j "status" Json.asStr
  pure { id := id, path := path, status := status }

/-- Embeds serde deserialization of the manifest `files` array. -/
def decodeFiles : Json → Option (List FileEntry)
  | .arr elems => mapDecode decodeFileEntry elems
  | _ => none

/-- Embeds the serde `Deserialize` derive for `SessionManifest`, the
parse performed when the manifest file is read back
(`history.rs` `parse_manifest`). -/
def decodeManifest (j : Json) : Option SessionManifest := do
  let session_id ← reqField j "sessionId" Json.asStr
  let created_at ← reqField j "createdAt" Json.asStr
  let provider ← reqField j "provider" Json.asStr
  let model ← reqField j "model" Json.asStr
  let output_dir ← reqField j "outputDir" Json.asStr
  let settings ← reqField j "settings" decodeSettings
  let files ← reqField j "files" decodeFiles
  pure { session_id := session_id, created_at := created_at, provider := provider,
         model := model, output_dir := output_dir, settings := settings, files := files }

/- ===================== UUID and timestamp well-formedness ===================== -/

/-- Lowercase hexadecimal digit for a nibble. -/
def hexChar (n : Nat) : Char :=
  if n < 10 then Char.ofNat (48 + n) else Char.ofNat (87 + n)

/-- The random content of a version-4 UUID: 30 free nibbles (split as
they appear between the hyphens, around the fixed version nibble and
the variant nibble) plus the 2 free bits of the variant nibble. -/
structure UuidV4Bytes where
  n1 : List Nat
  n2 : List Nat
  n3 : List Nat
  n4 : List Nat
  n5 : List Nat
  len1 : n1.length = 8
  len2 : n2.length = 4
  len3 : n3.length = 3
  len4 : n4.length = 3
  len5 : n5.length = 12
  nib1 : ∀ x ∈ n1, x < 16
  nib2 : ∀ x ∈ n2, x < 16
  nib3 : ∀ x ∈ n3, x < 16
  nib4 : ∀ x ∈ n4, x < 16
  nib5 : ∀ x ∈ n5, x < 16
  variant : Nat
  variant_lt : variant < 4

/-- The RFC 4122 variant nibble rendered by the `uuid` crate: one of
`8`, `9`, `a`, `b`. -/
def variantChar (v : Nat) : Char :=
  if v = 0 then '8' else if v = 1 then '9' else if v = 2 then 'a' else 'b'

/-- Modelled from the spec: `uuid::Uuid::new_v4().to_string()` (the
`uuid` crate is outside this repository).  A fresh v4 UUID rendered in
its canonical hyphenated lowercase form, with the version nibble fixed
to `4` and the variant nibble restricted to `8`/`9`/`a`/`b`. -/
def uuidV4String (u : UuidV4Bytes) : String :=
  String.mk (u.n1.map hexChar ++ '-' ::
    (u.n2.map hexChar ++ '-' :: '4' ::
      (u.n3.map hexChar ++ '-' :: variantChar u.variant ::
        (u.n4.map hexChar ++ '-' :: u.n5.map hexChar))))

/-- Lowercase hexadecimal digit test. -/
def isHexLower (c : Char) : Bool :=
  ('0' ≤ c && c ≤ '9') || ('a' ≤ c && c ≤ 'f')

/-- Consume exactly `k` lowercase hex digits. -/
def consumeHex : Nat → List Char → Option (List Char)
  | 0, l => some l
  | _ + 1, [] => none
  | k + 1, c :: l => if isHexLower c then consumeHex k l else none

/-- Consume one expected character. -/
def consumeChar (c : Char) : List Char → Option (List Char)
  | [] => none
  | d :: l => if c == d then some l else none

/-- Consume an RFC 4122 variant character (`8`, `9`, `a` or `b`). -/
def consumeVariant : List Char → Option (List Char)
  | [] => none
  | c :: l => if c == '8' || c == '9' || c == 'a' || c == 'b' then some l else none

/-- Well-formedness of a canonical version-4 UUID string: the
8-4-4-4-12 lowercase hex shape, version nibble `4`, RFC variant. -/
def isUuidV4Format (s : String) : Bool :=
  (do
    let r ← consumeHex 8 s.data
    let r ← consumeChar '-' r
    let r ← consumeHex 4 r
    let r ← consumeChar '-' r
    let r ← consumeChar '4' r
    let r ← consumeHex 3 r
    let r ← consumeChar '-' r
    let r ← consumeVariant r
    let r ← consumeHex 3 r
    let r ← consumeChar '-' r
    let r ← consumeHex 12 r
    if r.isEmpty then some () else none).isSome

/-- Calendar fields of a UTC instant as chrono renders them with
`SecondsFormat::Millis`; the bounds are those of a civil UTC time. -/
structure UtcTimestamp where
  year : Nat
  month : Nat
  day : Nat
  hour : Nat
  minute : Nat
  second : Nat
  milli : Nat
  year_le : year ≤ 9999
  month_le : month ≤ 12
  day_le : day ≤ 31
  hour_le : hour ≤ 23
  minute_le : minute ≤ 59
  second_le : second ≤ 59
  milli_le : milli ≤ 999

/-- Decimal digit for a value below ten. -/
def digitChar (n : Nat) : Char := Char.ofNat (48 + n)

/-- Two-digit zero-padded decimal rendering. -/
def pad2 (n : Nat) : List Char := [digitChar (n / 10), digitChar (n % 10)]

/-- Three-digit zero-padded decimal rendering. -/
def pad3 (n : Nat) : List Char :=
  [digitChar (n / 100), digitChar ((n / 10) % 10), digitChar (n % 10)]

/-- Four-digit zero-padded decimal rendering. -/
def pad4 (n : Nat) : List Char :=
  [digitChar (n / 1000), digitChar ((n / 100) % 10), digitChar ((n / 10) % 10),
   digitChar (n % 10)]

/-- Modelled from the spec: chrono
`Utc::now().to_rfc3339_opts(SecondsFormat::Millis, true)` (the chrono
crate is outside this repository).  Millisecond-precision RFC 3339 with
a trailing `Z`. -/
def rfc3339Millis (t : UtcTimestamp) : String :=
  String.mk (pad4 t.year ++ '-' ::
    (pad2 t.month ++ '-' ::
      (pad2 t.day ++ 'T' ::
        (pad2 t.hour ++ ':' ::
          (pad2 t.minute ++ ':' ::
            (pad2 t.second ++ '.' :: (pad3 t.milli ++ ['Z'])))))))

/-- Decimal digit test. -/
def isDecDigit (c : Char) : Bool := '0' ≤ c && c ≤ '9'

/-- Consume exactly `k` decimal digits. -/
def consumeDigits : Nat → List Char → Option (List Char)
  | 0, l => some l
  | _ + 1, [] => none
  | k + 1, c :: l => if isDecDigit c then consumeDigits k l else none

/-- Well-formedness of a millisecond-precision UTC RFC 3339 timestamp:
the `YYYY-MM-DDTHH:MM:SS.mmmZ` shape. -/
def isRfc3339MillisFormat (s : String) : Bool :=
  (do
    let r ← consumeDigits 4 s.data
    let r ← consumeChar '-' r
    let r ← consumeDigits 2 r
    let r ← consumeChar '-' r
    let r ← consumeDigits 2 r
    let r ← consumeChar 'T' r
    let r ← consumeDigits 2 r
    let r ← consumeChar ':' r
    let r ← consumeDigits 2 r
    let r ← consumeChar ':' r
    let r ← consumeDigits 2 r
    let r ← consumeChar '.' r
    let r ← consumeDigits 3 r
    let r ← consumeChar 'Z' r
    if r.isEmpty then some () else none).isSome

/- ===================== Session history store ===================== -/

/-- An IEEE-754 double carried by its bit pattern, uninterpreted: the
history code only copies `duration_seconds` values around. -/
structure F64 where
  bits : Nat
deriving DecidableEq

/-- The bit pattern of `0.0`, the default duration in
`summarize_from_files`. -/
def F64.zero : F64 := ⟨0⟩

/-- Embeds `history.rs` `FileOutcome`. -/
structure FileOutcome where
  status : String
  transcript_path : Option String
  json_path : Option String
  error : Option String
deriving DecidableEq

/-- Embeds `history.rs` `SessionSummarySnapshot` (`u64` counters). -/
structure SessionSummarySnapshot where
  total : Nat
  processed : Nat
  skipped : Nat
  failed : Nat
  duration_seconds : F64
deriving DecidableEq

/-- Embeds `history.rs` `SessionFileRecord`. -/
structure SessionFileRecord where
  id : String
  path : String
  name : String
  status : String
  transcript_path : Option String
  json_path : Option String
  error : Option String
deriving DecidableEq

/-- Embeds `history.rs` `SessionRecord` (`i32` counters as `Int`). -/
structure SessionRecord where
  id : String
  created_at : Int
  provider : String
  model : String
  output_dir : String
  manifest_path : String
  total : Int
  processed : Int
  skipped : Int
  failed : Int
  duration_seconds : F64
  exit_code : Int
  status : String
  files : List SessionFileRecord
deriving DecidableEq

/-- Embeds `history.rs` `normalize_file_name` (`Path::file_name` for the
ordinary slash-separated paths the manifest holds). -/
def normalize_file_name (path : String) : String :=
  (((path.splitOn "/").filter fun part => ¬ part.isEmpty).getLastD "")

/-- Embeds `history.rs` `to_i32`: `i32::try_from(value).unwrap_or(i32::MAX)`
for a `u64` input. -/
def to_i32 (value : Nat) : Int :=
  if value ≤ 2147483647 then (value : Int) else 2147483647

/-- Embeds `history.rs` `summarize_from_files`. -/
def summarize_from_files (files : List SessionFileRecord) : SessionSummarySnapshot :=
  { total := files.length
    processed := (files.filter fun file => file.status == "success").length
    skipped := (files.filter fun file => file.status == "skipped").length
    failed := (files.filter fun file => file.status == "failed").length
    duration_seconds := F64.zero }

/-- Lookup in the per-path outcome map (`HashMap::get`), the map being
carried as its entry list. -/
def lookupOutcome (outcomes : List (String × FileOutcome)) (path : String) :
    Option FileOutcome :=
  (outcomes.find? fun kv => kv.1 == path).map (·.2)

/-- Embeds `history.rs` `build_session_record`.  `parse_rfc3339_ts` and
`now` stand for the chrono calls inside `parse_created_at_unix`. -/
def build_session_record (parse_rfc3339_ts : String → Option Int) (now : Int)
    (manifest_path : String) (manifest : SessionManifest) (session_id : String)
    (summary : Option SessionSummarySnapshot) (exit_code : Int) (status : String)
    (outcomes : List (String × FileOutcome)) : SessionRecord :=
  let files := manifest.files.map fun entry =>
    let outcome := lookupOutcome outcomes entry.path
    let file_status :=
      match outcome with
      | some value => value.status
      | none =>
        if status == "cancelled" then "cancelled"
        else if status == "failed" then "failed"
        else entry.status
    { id := entry.id
      path := entry.path
      name := normalize_file_name entry.path
      status := file_status
      transcript_path := outcome.bind (·.transcript_path)
      json_path := outcome.bind (·.json_path)
      error := outcome.bind (·.error) : SessionFileRecord }
  let summary := summary.getD (summarize_from_files files)
  { id := session_id
    created_at := (parse_rfc3339_ts manifest.created_at).getD now
    provider := manifest.provider
    model := manifest.model
    output_dir := manifest.output_dir
    manifest_path := manifest_path
    total := to_i32 summary.total
    processed := to_i32 summary.processed
    skipped := to_i32 summary.skipped
    failed := to_i32 summary.failed
    duration_seconds := summary.duration_seconds
    exit_code := exit_code
    status := status
    files := files }

/-- A row of the `sessions` table (primary key `id`). -/
structure SessionRow where
  id : String
  created_at : Int
  provider : String
  model : String
  output_dir : String
  manifest_path : String
  total : Int
  processed : Int
  skipped : Int
  failed : Int
  duration_seconds : F64
  exit_code : Int
  status : String
deriving DecidableEq

/-- A row of the `session_files` table (primary key
`(session_id, file_id, path)`). -/
structure SessionFileRow where
  session_id : String
  file_id : String
  path : String
  name : String
  status : String
  transcript_path : Option String
  json_path : Option String
  error : Option String
deriving DecidableEq

/-- The two history tables. -/
structure HistoryDb where
  sessions : List SessionRow
  session_files : List SessionFileRow
deriving DecidableEq

/-- The `sessions` row written for a record. -/
def sessionRowOf (r : SessionRecord) : SessionRow :=
  { id := r.id, created_at := r.created_at, provider := r.provider, model := r.model,
    output_dir := r.output_dir, manifest_path := r.manifest_path, total := r.total,
    processed := r.processed, skipped := r.skipped, failed := r.failed,
    duration_seconds := r.duration_seconds, exit_code := r.exit_code, status := r.status }

/-- The `session_files` row written for one file record. -/
def fileRowOf (session_id : String) (f : SessionFileRecord) : SessionFileRow :=
  { session_id := session_id, file_id := f.id, path := f.path, name := f.name,
    status := f.status, transcript_path := f.transcript_path, json_path := f.json_path,
    error := f.error }

/-- The per-file `INSERT` loop of `save_session_record`: a plain
`INSERT`, so a primary-key conflict with a row already in the table
fails (and the surrounding transaction rolls back). -/
def insertSessionFileRows (session_id : String) :
    List SessionFileRecord → List SessionFileRow → Except String (List SessionFileRow)
  | [], table => .ok table
  | f :: rest, table =>
    if table.any fun g =>
        g.session_id == session_id && g.file_id == f.id && g.path == f.path then
      .error ("Failed to persist file " ++ f.path ++ " for session " ++ session_id)
    else
      insertSessionFileRows session_id rest (table ++ [fileRowOf session_id f])

/-- Embeds `history.rs` `save_session_record`: inside one transaction,
`INSERT OR REPLACE` the session row, `DELETE` the session's file rows,
then `INSERT` each file row.  An error rolls the transaction back, so
the caller's database is unchanged in that case. -/
def save_session_record (db : HistoryDb) (r : SessionRecord) : Except String HistoryDb :=
  let sessions := (db.sessions.filter fun row => row.id ≠ r.id) ++ [sessionRowOf r]
  let cleared := db.session_files.filter fun row => row.session_id ≠ r.id
  match insertSessionFileRows r.id r.files cleared with
  | .error e => .error e
  | .ok table => .ok { sessions := sessions, session_files := table }

/-- Concrete session record used to evaluate the history theorems on a
definite input. -/
def sampleRecord : SessionRecord :=
  ⟨"s", 0, "coreml-local", "v3", "/out", "m.json", 1, 1, 0, 0, F64.zero, 0, "completed",
   [⟨"file-a", "/audio/a.wav", "a.wav", "success", some "/out/a.txt", some "/out/a.json",
     none⟩]⟩

/-- The database produced by archiving `sampleRecord` into an empty
database. -/
def sampleDb1 : HistoryDb :=
  ⟨[sessionRowOf sampleRecord],
   [fileRowOf "s"
     ⟨"file-a", "/audio/a.wav", "a.wav", "success", some "/out/a.txt", some "/out/a.json",
      none⟩]⟩

/-- Concrete UUID content used to evaluate the manifest theorems. -/
def sampleUuidBytes : UuidV4Bytes :=
  ⟨[0, 1, 2, 3, 4, 5, 6, 7], [8, 9, 10, 11], [12, 13, 14], [15, 0, 1],
   [2, 3, 4, 5, 6, 7, 8, 9, 10, 11, 12, 13],
   rfl, rfl, rfl, rfl, rfl,
   by decide, by decide, by decide, by decide, by decide, 1, by decide⟩

/-- Concrete timestamp used to evaluate the manifest theorems. -/
def sampleTimestamp : UtcTimestamp :=
  ⟨2026, 2, 12, 0, 30, 59, 250,
   by decide, by decide, by decide, by decide, by decide, by decide, by decide⟩

/-- Concrete settings used to evaluate the manifest theorems. -/
def sampleSettings : TranscriptionSettings :=
  ⟨"both", true, false, 1, ["wav"], true, false, true, true, true⟩

/- ===================== Substring and trim lemmas ===================== -/

theorem startsWithChars_append (pat rest : List Char) :
    startsWithChars pat (pat ++ rest) = true := by
  induction pat with
  | nil => rfl
  | cons a pat ih => simp [startsWithChars, ih]

theorem containsSeq_of_starts {pat l : List Char} (h : startsWithChars pat l = true) :
    containsSeq pat l = true := by
  cases l with
  | nil =>
    cases pat with
    | nil => rfl
    | cons a pat => simp [startsWithChars] at h
  | cons b l => simp [containsSeq, h]

theorem containsSeq_append (pat pre rest : List Char) :
    containsSeq pat (pre ++ pat ++ rest) = true := by
  induction pre with
  | nil => exact containsSeq_of_starts (startsWithChars_append pat rest)
  | cons a pre ih =>
    refine Bool.or_eq_true_iff.mpr (Or.inr ?_)
    simpa using ih

theorem exists_of_startsWith {pat l : List Char} (h : startsWithChars pat l = true) :
    ∃ rest, l = pat ++ rest := by
  induction pat generalizing l with
  | nil => exact ⟨l, rfl⟩
  | cons a pat ih =>
    cases l with
    | nil => simp [startsWithChars] at h
    | cons b l =>
      simp only [startsWithChars, Bool.and_eq_true, beq_iff_eq] at h
      obtain ⟨rest, hrest⟩ := ih h.2
      exact ⟨rest, by simp [h.1, hrest]⟩

theorem exists_of_containsSeq {pat l : List Char} (h : containsSeq pat l = true) :
    ∃ pre rest, l = pre ++ pat ++ rest := by
  induction l with
  | nil =>
    obtain ⟨rest, hrest⟩ := exists_of_startsWith h
    exact ⟨[], rest, hrest⟩
  | cons b l ih =>
    rcases Bool.or_eq_true_iff.mp h with hs | hc
    · obtain ⟨rest, hrest⟩ := exists_of_startsWith hs
      exact ⟨[], rest, hrest⟩
    · obtain ⟨pre, rest, hrest⟩ := ih hc
      exact ⟨b :: pre, rest, by simp [hrest]⟩

theorem containsSeq_dropWhile {c0 : Char} {pat' l : List Char}
    (hw : isRustWs c0 = false) (h : containsSeq (c0 :: pat') l = true) :
    containsSeq (c0 :: pat') (l.dropWhile isRustWs) = true := by
  obtain ⟨pre, rest, hrest⟩ := exists_of_containsSeq h
  subst hrest
  induction pre with
  | nil =>
    simp only [List.nil_append, List.cons_append, List.dropWhile_cons, hw]
    simp only [Bool.false_eq_true, if_false]
    exact containsSeq_of_starts (by
      have := startsWithChars_append (c0 :: pat') rest
      simpa using this)
  | cons a pre ih =>
    by_cases ha : isRustWs a = true
    · simpa [List.dropWhile_cons, ha] using ih (containsSeq_append _ _ _)
    · simp only [List.cons_append, List.dropWhile_cons, ha]
      simp only [Bool.false_eq_true, if_false]
      exact containsSeq_append (c0 :: pat') (a :: pre) rest

theorem containsSeq_reverse {pat l : List Char} (h : containsSeq pat l = true) :
    containsSeq pat.reverse l.reverse = true := by
  obtain ⟨pre, rest, hrest⟩ := exists_of_containsSeq h
  subst hrest
  have : (pre ++ pat ++ rest).reverse = rest.reverse ++ pat.reverse ++ pre.reverse := by
    simp
  rw [this]
  exact containsSeq_append _ _ _

theorem containsSub_rustTrim (s pat : String) (c0 cl : Char) (p1 p2 : List Char)
    (hshape : pat.data = c0 :: p1) (hshape2 : pat.data.reverse = cl :: p2)
    (hw0 : isRustWs c0 = false) (hwl : isRustWs cl = false)
    (h : containsSub s pat = true) : containsSub (rustTrim s) pat = true := by
  unfold containsSub at h ⊢
  rw [hshape] at h ⊢
  have step1 : containsSeq (c0 :: p1) (s.data.dropWhile isRustWs) = true :=
    containsSeq_dropWhile hw0 h
  have step2 : containsSeq (c0 :: p1).reverse (s.data.dropWhile isRustWs).reverse = true :=
    containsSeq_reverse step1
  have hrev : (c0 :: p1).reverse = cl :: p2 := by
    have : (c0 :: p1).reverse = pat.data.reverse := by rw [hshape]
    rw [this, hshape2]
  rw [hrev] at step2
  have step3 :
      containsSeq (cl :: p2)
        (((s.data.dropWhile isRustWs).reverse).dropWhile isRustWs) = true :=
    containsSeq_dropWhile hwl step2
  have step4 :
      containsSeq (cl :: p2).reverse
        ((((s.data.dropWhile isRustWs).reverse).dropWhile isRustWs).reverse) = true :=
    containsSeq_reverse step3
  have hrev2 : (cl :: p2).reverse = c0 :: p1 := by
    rw [← hshape2, List.reverse_reverse, hshape]
  rw [hrev2] at step4
  simpa [rustTrim] using step4

theorem rustTrim_of_all_ws {s : String} (h : s.data.all isRustWs = true) :
    rustTrim s = "" := by
  have hall : ∀ c ∈ s.data, isRustWs c = true := by
    intro c hc
    exact List.all_eq_true.mp h c hc
  have hdrop : s.data.dropWhile isRustWs = [] := by
    rw [List.dropWhile_eq_nil_iff]
    intro c hc
    exact hall c hc
  simp [rustTrim, hdrop]

/- ===================== Claim C7 ===================== -/

/-- C7: for every provider id and settings value, `resolve_provider`
returns an `InvalidModel` error whenever the model string is empty or
whitespace-only, or contains `..`, `/` or `\` anywhere in it. -/
theorem resolve_provider_rejects_invalid_model (env : ResolveEnv) (id model : String)
    (settings : ProviderSettings)
    (h : model.data.all isRustWs = true ∨ containsSub model ".." = true ∨
         containsSub model "/" = true ∨ containsSub model "\\" = true) :
    resolve_provider env id model settings = .error (.InvalidModel model) := by
  have hcond : ((rustTrim model).isEmpty || containsSub (rustTrim model) ".." ||
      containsSub (rustTrim model) "/" || containsSub (rustTrim model) "\\") = true := by
    rcases h with h | h | h | h
    · have : rustTrim model = "" := rustTrim_of_all_ws h
      rw [this]
      decide
    · have : containsSub (rustTrim model) ".." = true :=
        containsSub_rustTrim model ".." '.' '.' ['.'] ['.']
          rfl rfl (by decide) (by decide) h
      simp [this]
    · have : containsSub (rustTrim model) "/" = true :=
        containsSub_rustTrim model "/" '/' '/' [] []
          rfl rfl (by decide) (by decide) h
      simp [this]
    · have : containsSub (rustTrim model) "\\" = true :=
        containsSub_rustTrim model "\\" '\\' '\\' [] []
          rfl rfl (by decide) (by decide) h
      simp [this]
  have hv : validate_model model = .error (.InvalidModel model) := by
    simp [validate_model, hcond]
  simp [resolve_provider, hv]

/-- Witness for C7 at a concrete traversal attempt. -/
theorem resolve_provider_rejects_invalid_model_witness :
    (containsSub "../escape" ".." = true) ∧
    resolve_provider ⟨none, none, fun _ => true⟩ "coreml-local" "../escape"
        ⟨none, none, false⟩ = .error (.InvalidModel "../escape") :=
  ⟨by decide,
   resolve_provider_rejects_invalid_model ⟨none, none, fun _ => true⟩ "coreml-local"
     "../escape" ⟨none, none, false⟩ (Or.inr (Or.inl (by decide)))⟩

/- ===================== Claim C8 ===================== -/

/-- C8 counterexample: with availability checking disabled and no
models-root override, `resolve_provider` still depends on the ambient
`HOME` environment, so its result is not a function of its arguments
alone — two calls under different environments disagree on a valid
(provider, model) pair. -/
theorem resolve_provider_env_dependence_counterexample :
    resolve_provider ⟨some "/users/alice", none, fun _ => true⟩ "coreml-local" "v3"
        ⟨none, none, false⟩ ≠
      resolve_provider ⟨some "/users/bob", none, fun _ => true⟩ "coreml-local" "v3"
        ⟨none, none, false⟩ := by
  decide

/-- C8 amended: with availability checking disabled, `resolve_provider`
never consults the availability probe (no process is spawned), and
whenever both path overrides are supplied its result is independent of
the ambient environment — it is then a function of (id, model,
settings) alone. -/
theorem resolve_provider_pure_when_check_disabled :
    (∀ (env : ResolveEnv) (probe : ProviderRuntime → Bool) (id model : String)
        (b r : Option String),
      resolve_provider ⟨env.home, env.project_root, probe⟩ id model ⟨b, r, false⟩ =
        resolve_provider env id model ⟨b, r, false⟩)
    ∧ (∀ (e1 e2 : ResolveEnv) (id model b r : String),
      resolve_provider e1 id model ⟨some b, some r, false⟩ =
        resolve_provider e2 id model ⟨some b, some r, false⟩) := by
  constructor
  · intro env probe id model b r
    cases hv : validate_model model <;>
      simp [resolve_provider, hv, default_models_root, default_swift_binary_path]
  · intro e1 e2 id model b r
    cases hv : validate_model model <;> simp [resolve_provider, hv]

/- ===================== Claim C10 ===================== -/

/-- C10: for every SwiftNative runtime, the worker command carries
`--model-version v2` exactly when the model directory path, ASCII
lowercased, contains the substring `v2` anywhere, and `--model-version
v3` in every other case. -/
theorem model_version_flag_follows_model_dir (pyprojectExists : String → Bool)
    (binary_path model_dir manifest_path output_dir : String) :
    command_args_for_runtime pyprojectExists (.SwiftNative binary_path model_dir)
        manifest_path output_dir =
      .ok { program := binary_path,
            args := ["--model-dir", model_dir,
                     "--model-version", infer_model_version_from_model_dir model_dir,
                     "--manifest", manifest_path, "--output-dir", output_dir] }
    ∧ (infer_model_version_from_model_dir model_dir = "v2" ↔
        containsSub (asciiLower model_dir) "v2" = true)
    ∧ (infer_model_version_from_model_dir model_dir = "v2" ∨
        infer_model_version_from_model_dir model_dir = "v3") := by
  refine ⟨rfl, ?_, ?_⟩
  · by_cases h : containsSub (asciiLower model_dir) "v2" = true
    · simp [infer_model_version_from_model_dir, h]
    · simp [infer_model_version_from_model_dir, h]
  · by_cases h : containsSub (asciiLower model_dir) "v2" = true
    · exact Or.inl (by simp [infer_model_version_from_model_dir, h])
    · exact Or.inr (by simp [infer_model_version_from_model_dir, h])

/- ===================== Claim C1 ===================== -/

/-- C1: while an `ActiveProcess` occupies the single admission slot,
every `launch` call fails with the concurrency error before any
process is spawned, the existing session (all its fields) is left
untouched, and the new request is not registered anywhere. -/
theorem launch_rejected_while_session_active (a : ActiveProcess) (env : LaunchEnv)
    (session_id manifest_path : String) (queued_item_ids : List String) :
    WorkerLauncher.launch (some a) env session_id manifest_path queued_item_ids =
      { result := .error "A transcription session is already running",
        active := some a, spawned := false } :=
  rfl

/- ===================== Claim C5 ===================== -/

/-- C5: if a session is active and `stop` is called with a different
session id, the call fails with an error naming both the active and the
requested id, the admission slot keeps the same `ActiveProcess`, no
termination signal reaches the running worker, and nothing is
archived. -/
theorem stop_mismatched_id_is_error (a : ActiveProcess) (env : StopEnv)
    (requested : String) (h : a.session_id ≠ requested) :
    WorkerLauncher.stop (some a) env requested =
      { result := .error ("Session mismatch: active=" ++ a.session_id ++
          ", requested=" ++ requested),
        active := some a, termination_signals := 0, archived := false } := by
  simp [WorkerLauncher.stop, h]

/-- Witness for C5 at concrete mismatched ids. -/
theorem stop_mismatched_id_is_error_witness :
    (ActiveProcess.session_id ⟨"session-a", "/tmp/a.json", ["item-1"], 7⟩ ≠ "session-b") ∧
    WorkerLauncher.stop (some ⟨"session-a", "/tmp/a.json", ["item-1"], 7⟩)
        ⟨true, true, true, true, true⟩ "session-b" =
      { result := .error ("Session mismatch: active=" ++ "session-a" ++
          ", requested=" ++ "session-b"),
        active := some ⟨"session-a", "/tmp/a.json", ["item-1"], 7⟩,
        termination_signals := 0, archived := false } :=
  ⟨by decide,
   stop_mismatched_id_is_error ⟨"session-a", "/tmp/a.json", ["item-1"], 7⟩
     ⟨true, true, true, true, true⟩ "session-b" (by decide)⟩

/- ===================== Claim C6 ===================== -/

/-- C6: a blank worker stdout line produces no event and the stream
continues with the remaining lines exactly as if the blank line were
absent; a non-JSON line is forwarded verbatim as a raw-line event
carrying the original text, and the remaining lines are still
processed. -/
theorem stdout_line_error_recovery {σ : Type} (parseJson : String → Option Json)
    (update : σ → Json → σ) (st : σ) (line : String) (rest : List String) :
    ((rustTrim line).isEmpty = true →
      process_stdout_lines parseJson update st (line :: rest) =
        process_stdout_lines parseJson update st rest)
    ∧ ((rustTrim line).isEmpty = false → parseJson line = none →
      process_stdout_lines parseJson update st (line :: rest) =
        ((process_stdout_lines parseJson update st rest).1,
         .rawLine line :: (process_stdout_lines parseJson update st rest).2)) := by
  constructor
  · intro h
    simp [process_stdout_lines, process_stdout_line, parse_worker_line, h]
  · intro h hp
    simp [process_stdout_lines, process_stdout_line, parse_worker_line, h, hp]

/-- Witness for C6 on a concrete malformed line ahead of further
lines. -/
theorem stdout_line_error_recovery_witness :
    ((rustTrim "not-json").isEmpty = false) ∧
    process_stdout_lines (fun _ => none) (fun (n : Nat) _ => n) 0 ["not-json", "  "] =
      ((process_stdout_lines (fun _ => none) (fun (n : Nat) _ => n) 0 ["  "]).1,
       .rawLine "not-json" ::
         (process_stdout_lines (fun _ => none) (fun (n : Nat) _ => n) 0 ["  "]).2) :=
  ⟨by decide,
   (stdout_line_error_recovery (fun _ => none) (fun (n : Nat) _ => n) 0 "not-json"
     ["  "]).2 (by decide) rfl⟩

/- ===================== Claim C2 ===================== -/

/-- C2: archival gives each manifest file with a recorded outcome that
outcome's status; a file without one gets "cancelled" when the session
status is "cancelled", "failed" when it is "failed", and its
manifest-declared status otherwise; with an empty outcome map a
"cancelled" (resp. "failed") session yields "cancelled" (resp.
"failed") for every file row. -/
theorem archived_file_statuses (parse_ts : String → Option Int) (now : Int)
    (manifest_path : String) (manifest : SessionManifest) (session_id : String)
    (summary : Option SessionSummarySnapshot) (exit_code : Int) (status : String)
    (outcomes : List (String × FileOutcome)) :
    ((build_session_record parse_ts now manifest_path manifest session_id summary
        exit_code status outcomes).files.map (·.status) =
      manifest.files.map fun entry =>
        match lookupOutcome outcomes entry.path with
        | some o => o.status
        | none =>
          if status = "cancelled" then "cancelled"
          else if status = "failed" then "failed"
          else entry.status)
    ∧ (status = "cancelled" → outcomes = [] →
        ∀ fr ∈ (build_session_record parse_ts now manifest_path manifest session_id
          summary exit_code status outcomes).files, fr.status = "cancelled")
    ∧ (status = "failed" → outcomes = [] →
        ∀ fr ∈ (build_session_record parse_ts now manifest_path manifest session_id
          summary exit_code status outcomes).files, fr.status = "failed") := by
  refine ⟨?_, ?_, ?_⟩
  · simp only [build_session_record, List.map_map]
    apply List.map_congr_left
    intro entry _
    rcases hcase : lookupOutcome outcomes entry.path with _ | v <;> simp [hcase]
  · intro hstatus houtcomes fr hmem
    subst hstatus
    subst houtcomes
    simp only [build_session_record, List.mem_map] at hmem
    obtain ⟨entry, _, rfl⟩ := hmem
    simp [lookupOutcome]
  · intro hstatus houtcomes fr hmem
    subst hstatus
    subst houtcomes
    simp only [build_session_record, List.mem_map] at hmem
    obtain ⟨entry, _, rfl⟩ := hmem
    simp [lookupOutcome]

/-- Witness for C2: a cancelled session with an empty outcome map turns
every file row status into "cancelled". -/
theorem archived_file_statuses_witness :
    (build_session_record (fun _ => none) 0 "m.json"
      ⟨"s", "t", "coreml-local", "v3", "/out",
       ⟨"both", true, false, 1, ["wav"], true, false, true, true, true⟩,
       [⟨"file-a", "/audio/a.wav", "queued"⟩, ⟨"file-b", "/audio/b.wav", "queued"⟩]⟩
      "s" none (-1) "cancelled" []).files.map (·.status) =
      ["cancelled", "cancelled"] := by
  have h := (archived_file_statuses (fun _ => none) 0 "m.json"
    ⟨"s", "t", "coreml-local", "v3", "/out",
     ⟨"both", true, false, 1, ["wav"], true, false, true, true, true⟩,
     [⟨"file-a", "/audio/a.wav", "queued"⟩, ⟨"file-b", "/audio/b.wav", "queued"⟩]⟩
    "s" none (-1) "cancelled" []).1
  rw [h]
  decide

/- ===================== Claim C3 ===================== -/

/-- C3 counterexample: the claim says the stored totals always equal a
worker-supplied summary, but `to_i32` clamps at `i32::MAX`, so a
summary totalling 2147483648 is stored as 2147483647. -/
theorem archived_totals_counterexample :
    (build_session_record (fun _ => none) 0 "m.json"
        ⟨"s", "t", "coreml-local", "v3", "/out",
         ⟨"both", true, false, 1, ["wav"], true, false, true, true, true⟩, []⟩
        "s" (some ⟨2147483648, 0, 0, 0, F64.zero⟩) 1 "failed" []).total = 2147483647
    ∧ (build_session_record (fun _ => none) 0 "m.json"
        ⟨"s", "t", "coreml-local", "v3", "/out",
         ⟨"both", true, false, 1, ["wav"], true, false, true, true, true⟩, []⟩
        "s" (some ⟨2147483648, 0, 0, 0, F64.zero⟩) 1 "failed" []).total ≠
      ((2147483648 : Nat) : Int) := by
  constructor
  · decide
  · decide

/-- C3 amended: the stored aggregate totals equal the worker-supplied
summary values clamped to `i32::MAX` when a summary was provided —
hence equal them exactly whenever each value fits in an `i32` — and
otherwise equal the (clamped) recount of the record's own file rows. -/
theorem archived_totals_consistent (parse_ts : String → Option Int) (now : Int)
    (manifest_path : String) (manifest : SessionManifest) (session_id : String)
    (summary : Option SessionSummarySnapshot) (exit_code : Int) (status : String)
    (outcomes : List (String × FileOutcome)) (r : SessionRecord)
    (hr : r = build_session_record parse_ts now manifest_path manifest session_id summary
      exit_code status outcomes) :
    (∀ s, summary = some s →
      r.total = to_i32 s.total ∧ r.processed = to_i32 s.processed ∧
      r.skipped = to_i32 s.skipped ∧ r.failed = to_i32 s.failed ∧
      (s.total ≤ 2147483647 → r.total = s.total) ∧
      (s.processed ≤ 2147483647 → r.processed = s.processed) ∧
      (s.skipped ≤ 2147483647 → r.skipped = s.skipped) ∧
      (s.failed ≤ 2147483647 → r.failed = s.failed))
    ∧ (summary = none →
      r.total = to_i32 r.files.length ∧
      r.processed = to_i32 (r.files.filter fun f => f.status == "success").length ∧
      r.skipped = to_i32 (r.files.filter fun f => f.status == "skipped").length ∧
      r.failed = to_i32 (r.files.filter fun f => f.status == "failed").length) := by
  subst hr
  constructor
  · intro s hs
    subst hs
    refine ⟨rfl, rfl, rfl, rfl, ?_, ?_, ?_, ?_⟩ <;>
      · intro hle
        simp [build_session_record, to_i32, hle]
  · intro hs
    subst hs
    refine ⟨?_, ?_, ?_, ?_⟩ <;> simp [build_session_record, summarize_from_files]

/-- Witness for C3 at a concrete supplied summary. -/
theorem archived_totals_consistent_witness :
    (build_session_record (fun _ => none) 0 "m.json"
        ⟨"s", "t", "coreml-local", "v3", "/out",
         ⟨"both", true, false, 1, ["wav"], true, false, true, true, true⟩, []⟩
        "s" (some ⟨2, 1, 0, 1, F64.zero⟩) 1 "failed" []).total = to_i32 2 :=
  ((archived_totals_consistent (fun _ => none) 0 "m.json"
      ⟨"s", "t", "coreml-local", "v3", "/out",
       ⟨"both", true, false, 1, ["wav"], true, false, true, true, true⟩, []⟩
      "s" (some ⟨2, 1, 0, 1, F64.zero⟩) 1 "failed" [] _ rfl).1
    ⟨2, 1, 0, 1, F64.zero⟩ rfl).1

/- ===================== Insert-loop lemmas ===================== -/

theorem insertSessionFileRows_ok (sid : String) (files : List SessionFileRecord)
    (table : List SessionFileRow)
    (hinv : ∀ g ∈ table, g.session_id = sid →
      ∀ f ∈ files, ¬(g.file_id = f.id ∧ g.path = f.path))
    (hnd : files.Pairwise fun f g => ¬(f.id = g.id ∧ f.path = g.path)) :
    insertSessionFileRows sid files table = .ok (table ++ files.map (fileRowOf sid)) := by
  induction files generalizing table with
  | nil => simp [insertSessionFileRows]
  | cons f rest ih =>
    have hfun : ∀ g ∈ table,
        (g.session_id == sid && g.file_id == f.id && g.path == f.path) = false := by
      intro g hg
      by_cases hsid : g.session_id = sid
      · have hkey := hinv g hg hsid f (List.mem_cons_self f rest)
        by_cases hone : g.file_id = f.id
        · by_cases htwo : g.path = f.path
          · exact absurd ⟨hone, htwo⟩ hkey
          · simp [htwo]
        · simp [hone]
      · simp [hsid]
    have hany : (table.any fun g =>
        g.session_id == sid && g.file_id == f.id && g.path == f.path) = false := by
      rw [List.any_eq_false]
      intro g hg
      simp [hfun g hg]
    rw [insertSessionFileRows, hany]
    simp only [Bool.false_eq_true, if_false]
    rw [ih]
    · simp
    · intro g hg hsid f2 hf2
      rcases List.mem_append.mp hg with hgt | hgn
      · exact hinv g hgt hsid f2 (List.mem_cons_of_mem _ hf2)
      · have hgf : g = fileRowOf sid f := by simpa using hgn
        subst hgf
        have hrel := (List.pairwise_cons.mp hnd).1 f2 hf2
        simpa [fileRowOf] using hrel
    · exact (List.pairwise_cons.mp hnd).2

theorem insertSessionFileRows_other (sid : String) (files : List SessionFileRecord) :
    ∀ (table out : List SessionFileRow),
    insertSessionFileRows sid files table = .ok out →
    out.filter (fun row => row.session_id ≠ sid) =
      table.filter (fun row => row.session_id ≠ sid) := by
  induction files with
  | nil =>
    intro table out h
    simp only [insertSessionFileRows] at h
    cases h
    rfl
  | cons f rest ih =>
    intro table out h
    rw [insertSessionFileRows] at h
    by_cases hany : (table.any fun g =>
        g.session_id == sid && g.file_id == f.id && g.path == f.path) = true
    · rw [hany] at h
      simp at h
    · rw [Bool.not_eq_true] at hany
      rw [hany] at h
      simp only [Bool.false_eq_true, if_false] at h
      have hrec := ih _ _ h
      rw [hrec, List.filter_append]
      simp [fileRowOf]

theorem countKeyRows (sid : String) (files : List SessionFileRecord)
    (hnd : files.Pairwise fun f g => ¬(f.id = g.id ∧ f.path = g.path)) :
    ∀ f ∈ files,
      ((files.map (fileRowOf sid)).filter fun row =>
        row.session_id = sid ∧ row.file_id = f.id ∧ row.path = f.path).length = 1 := by
  induction files with
  | nil => intro f hf; cases hf
  | cons a rest ih =>
    intro f hf
    have hpc := List.pairwise_cons.mp hnd
    rcases List.mem_cons.mp hf with hfa | hfr
    · subst hfa
      have hzero : ((rest.map (fileRowOf sid)).filter fun row =>
          row.session_id = sid ∧ row.file_id = f.id ∧ row.path = f.path) = [] := by
        rw [List.filter_eq_nil_iff]
        intro row hrow
        obtain ⟨b, hb, rfl⟩ := List.mem_map.mp hrow
        have hrel := hpc.1 b hb
        simp only [fileRowOf, decide_eq_true_eq, not_and]
        intro _ hid hpath
        exact hrel ⟨hid.symm, hpath.symm⟩
      simp [fileRowOf, List.filter_cons, hzero]
      intro a ha hidq hpathq
      exact hpc.1 a ha ⟨hidq.symm, hpathq.symm⟩
    · have hrel := hpc.1 f hfr
      have hhead : ¬((fileRowOf sid a).session_id = sid ∧
          (fileRowOf sid a).file_id = f.id ∧ (fileRowOf sid a).path = f.path) := by
        simp only [fileRowOf, not_and]
        intro _ hid hpath
        exact hrel ⟨hid, hpath⟩
      simp only [List.map_cons, List.filter_cons]
      rw [if_neg (by simpa using hhead)]
      exact ih hpc.2 f hfr

/- ===================== Claim C4 ===================== -/

/-- C4: archiving the same session id twice is idempotent at the row
level.  Given any earlier successful archival of that id, a re-archival
succeeds (for a record whose file keys are distinct, as manifest rows
are), leaves exactly one file row per manifest file, keeps exactly one
session row for the id, replaces the session's file rows with exactly
the new ones, and leaves other sessions' rows untouched. -/
theorem rearchive_fully_replaces_rows (db : HistoryDb) (r1 r2 : SessionRecord)
    (db1 : HistoryDb) (h1 : save_session_record db r1 = .ok db1)
    (hid : r2.id = r1.id)
    (hnd : r2.files.Pairwise fun f g => ¬(f.id = g.id ∧ f.path = g.path)) :
    ∃ db2, save_session_record db1 r2 = .ok db2
      ∧ (db2.session_files.filter fun row => row.session_id = r2.id) =
          r2.files.map (fileRowOf r2.id)
      ∧ (∀ f ∈ r2.files,
          (db2.session_files.filter fun row =>
            row.session_id = r2.id ∧ row.file_id = f.id ∧ row.path = f.path).length = 1)
      ∧ (db2.sessions.filter fun row => row.id = r2.id).length = 1
      ∧ (db2.session_files.filter fun row => row.session_id ≠ r2.id) =
          (db.session_files.filter fun row => row.session_id ≠ r2.id) := by
  have hfilter_idem : ∀ (l : List SessionFileRow) (sid : String),
      ((l.filter fun row => row.session_id ≠ sid).filter fun row => row.session_id ≠ sid) =
        l.filter fun row => row.session_id ≠ sid := by
    intro l sid
    apply List.filter_eq_self.mpr
    intro a ha
    exact (List.mem_filter.mp ha).2
  have hins : insertSessionFileRows r2.id r2.files
      (db1.session_files.filter fun row => row.session_id ≠ r2.id) =
      .ok ((db1.session_files.filter fun row => row.session_id ≠ r2.id) ++
        r2.files.map (fileRowOf r2.id)) := by
    apply insertSessionFileRows_ok
    · intro g hg hsid f hf
      have hne := (List.mem_filter.mp hg).2
      simp [hsid] at hne
    · exact hnd
  refine ⟨{ sessions := (db1.sessions.filter fun row => row.id ≠ r2.id) ++ [sessionRowOf r2],
            session_files := (db1.session_files.filter fun row => row.session_id ≠ r2.id) ++
              r2.files.map (fileRowOf r2.id) }, ?_, ?_, ?_, ?_, ?_⟩
  · simp only [ne_eq, decide_not] at hins
    simp only [save_session_record, ne_eq, decide_not]
    rw [hins]
  · rw [List.filter_append]
    have hleft : ((db1.session_files.filter fun row => row.session_id ≠ r2.id).filter
        fun row => row.session_id = r2.id) = [] := by
      rw [List.filter_eq_nil_iff]
      intro row hrow
      have hne := (List.mem_filter.mp hrow).2
      simp at hne ⊢
      exact hne
    have hright : ((r2.files.map (fileRowOf r2.id)).filter
        fun row => row.session_id = r2.id) = r2.files.map (fileRowOf r2.id) := by
      apply List.filter_eq_self.mpr
      intro row hrow
      obtain ⟨b, _, rfl⟩ := List.mem_map.mp hrow
      simp [fileRowOf]
    rw [hleft, hright, List.nil_append]
  · intro f hf
    rw [List.filter_append]
    have hleft : ((db1.session_files.filter fun row => row.session_id ≠ r2.id).filter
        fun row => row.session_id = r2.id ∧ row.file_id = f.id ∧ row.path = f.path) = [] := by
      rw [List.filter_eq_nil_iff]
      intro row hrow
      have hne := (List.mem_filter.mp hrow).2
      simp at hne ⊢
      intro hsid
      exact absurd hsid hne
    rw [hleft, List.nil_append]
    exact countKeyRows r2.id r2.files hnd f hf
  · rw [List.filter_append]
    have hleft : ((db1.sessions.filter fun row => row.id ≠ r2.id).filter
        fun row => row.id = r2.id) = [] := by
      rw [List.filter_eq_nil_iff]
      intro row hrow
      have hne := (List.mem_filter.mp hrow).2
      simp at hne ⊢
      exact hne
    have hright : ([sessionRowOf r2].filter fun row => row.id = r2.id) =
        [sessionRowOf r2] := by
      simp [sessionRowOf]
    rw [hleft, hright, List.nil_append]
    rfl
  · rw [List.filter_append]
    have hright : ((r2.files.map (fileRowOf r2.id)).filter
        fun row => row.session_id ≠ r2.id) = [] := by
      rw [List.filter_eq_nil_iff]
      intro row hrow
      obtain ⟨b, _, rfl⟩ := List.mem_map.mp hrow
      simp [fileRowOf]
    rw [hright, List.append_nil, hfilter_idem]
    rw [save_session_record] at h1
    rcases hins0 : insertSessionFileRows r1.id r1.files
        (db.session_files.filter fun row => row.session_id ≠ r1.id) with e | table
    · rw [hins0] at h1
      simp at h1
    · rw [hins0] at h1
      simp only [Except.ok.injEq] at h1
      have hdb1files : db1.session_files = table := by rw [← h1]
      have hother := insertSessionFileRows_other r1.id r1.files _ _ hins0
      rw [hdb1files, hid, hother, hfilter_idem]

/-- Witness for C4 re-archiving a concrete one-file record. -/
theorem rearchive_fully_replaces_rows_witness :
    (save_session_record ⟨[], []⟩ sampleRecord = .ok sampleDb1) ∧
    ∃ db2, save_session_record sampleDb1 sampleRecord = .ok db2
      ∧ (db2.session_files.filter fun row => row.session_id = sampleRecord.id) =
          sampleRecord.files.map (fileRowOf sampleRecord.id)
      ∧ (∀ f ∈ sampleRecord.files,
          (db2.session_files.filter fun row =>
            row.session_id = sampleRecord.id ∧ row.file_id = f.id ∧
              row.path = f.path).length = 1)
      ∧ (db2.sessions.filter fun row => row.id = sampleRecord.id).length = 1
      ∧ (db2.session_files.filter fun row => row.session_id ≠ sampleRecord.id) =
          ((⟨[], []⟩ : HistoryDb).session_files.filter fun row =>
            row.session_id ≠ sampleRecord.id) :=
  ⟨by decide,
   rearchive_fully_replaces_rows ⟨[], []⟩ sampleRecord sampleRecord sampleDb1
     (by decide) rfl (by simp [sampleRecord])⟩

/- ===================== Manifest codec lemmas ===================== -/

theorem decStrList_encode (l : List String) :
    decStrList (.arr (l.map .str)) = some l := by
  simp only [decStrList]
  induction l with
  | nil => rfl
  | cons a l ih => simp_all [mapDecode, Json.asStr]

theorem decodeFileEntry_encode (f : FileEntry) :
    decodeFileEntry (encodeFileEntry f) = some f := rfl

theorem decodeFiles_encode (l : List FileEntry) :
    decodeFiles (.arr (l.map encodeFileEntry)) = some l := by
  simp only [decodeFiles]
  induction l with
  | nil => rfl
  | cons f l ih => simp_all [mapDecode, decodeFileEntry_encode]

theorem decodeSettings_encode (s : TranscriptionSettings)
    (h : s.max_retries ≤ 4294967295) :
    decodeSettings (encodeSettings s) = some s := by
  have hint : (0 : Int) ≤ (s.max_retries : Int) ∧ (s.max_retries : Int) ≤ 4294967295 := by
    constructor
    · exact_mod_cast Nat.zero_le _
    · exact_mod_cast h
  rcases s with ⟨of, rec, ov, mr, ex, ff, dr, ne, nc, nerr⟩
  simp_all [decodeSettings, encodeSettings, optField, Json.getField, Json.asStr, decBool,
    decU32, decStrList_encode]

theorem decodeManifest_encode (m : SessionManifest)
    (h : m.settings.max_retries ≤ 4294967295) :
    decodeManifest (encodeManifest m) = some m := by
  rcases m with ⟨sid, ts, pr, mo, od, st, fs⟩
  simp_all [decodeManifest, encodeManifest, reqField, Json.getField, Json.asStr,
    decodeSettings_encode, decodeFiles_encode]

/- ===================== Format lemmas ===================== -/

theorem hexChar_isHexLower (n : Nat) (h : n < 16) : isHexLower (hexChar n) = true := by
  interval_cases n <;> decide

theorem consumeHex_map (l : List Nat) (r : List Char) (h : ∀ x ∈ l, x < 16) :
    consumeHex l.length (l.map hexChar ++ r) = some r := by
  induction l with
  | nil => rfl
  | cons a l ih =>
    simp only [List.map_cons, List.cons_append, List.length_cons, consumeHex,
      hexChar_isHexLower a (h a (List.mem_cons_self a l)), if_true]
    exact ih fun x hx => h x (List.mem_cons_of_mem _ hx)

theorem consumeChar_cons (c : Char) (r : List Char) : consumeChar c (c :: r) = some r := by
  simp [consumeChar]

theorem consumeVariant_cons (v : Nat) (hv : v < 4) (r : List Char) :
    consumeVariant (variantChar v :: r) = some r := by
  interval_cases v <;> simp [variantChar, consumeVariant]

theorem uuidV4String_wellformed (u : UuidV4Bytes) :
    isUuidV4Format (uuidV4String u) = true := by
  have e1 : consumeHex 8 ((uuidV4String u).data) =
      some ('-' :: (u.n2.map hexChar ++ '-' :: '4' ::
        (u.n3.map hexChar ++ '-' :: variantChar u.variant ::
          (u.n4.map hexChar ++ '-' :: u.n5.map hexChar)))) := by
    show consumeHex 8 (u.n1.map hexChar ++ _) = _
    rw [← u.len1]
    exact consumeHex_map _ _ u.nib1
  have e2 : ∀ r : List Char, consumeHex 4 (u.n2.map hexChar ++ r) = some r := by
    intro r
    rw [← u.len2]
    exact consumeHex_map _ _ u.nib2
  have e3 : ∀ r : List Char, consumeHex 3 (u.n3.map hexChar ++ r) = some r := by
    intro r
    rw [← u.len3]
    exact consumeHex_map _ _ u.nib3
  have e4 : ∀ r : List Char, consumeHex 3 (u.n4.map hexChar ++ r) = some r := by
    intro r
    rw [← u.len4]
    exact consumeHex_map _ _ u.nib4
  have e5 : consumeHex 12 (u.n5.map hexChar ++ []) = some [] := by
    rw [← u.len5]
    exact consumeHex_map _ _ u.nib5
  have e5' : consumeHex 12 (u.n5.map hexChar) = some [] := by
    simpa using e5
  simp [isUuidV4Format, e1, e2, e3, e4, e5', consumeChar_cons,
    consumeVariant_cons u.variant u.variant_lt]

theorem digitChar_isDecDigit (n : Nat) (h : n < 10) : isDecDigit (digitChar n) = true := by
  interval_cases n <;> decide

theorem consumeDigits_append (l r : List Char) (h : ∀ c ∈ l, isDecDigit c = true) :
    consumeDigits l.length (l ++ r) = some r := by
  induction l with
  | nil => rfl
  | cons a l ih =>
    simp only [List.cons_append, List.length_cons, consumeDigits,
      h a (List.mem_cons_self a l), if_true]
    exact ih fun c hc => h c (List.mem_cons_of_mem _ hc)

theorem pad2_digits (n : Nat) (h : n ≤ 99) : ∀ c ∈ pad2 n, isDecDigit c = true := by
  intro c hc
  have hdiv : n / 10 ≤ 99 / 10 := Nat.div_le_div_right h
  have hmod : n % 10 < 10 := Nat.mod_lt _ (by norm_num)
  simp only [pad2, List.mem_cons, List.not_mem_nil, or_false] at hc
  rcases hc with rfl | rfl
  · exact digitChar_isDecDigit _ (by omega)
  · exact digitChar_isDecDigit _ hmod

theorem pad3_digits (n : Nat) (h : n ≤ 999) : ∀ c ∈ pad3 n, isDecDigit c = true := by
  intro c hc
  have hdiv : n / 100 ≤ 999 / 100 := Nat.div_le_div_right h
  have hmod1 : (n / 10) % 10 < 10 := Nat.mod_lt _ (by norm_num)
  have hmod : n % 10 < 10 := Nat.mod_lt _ (by norm_num)
  simp only [pad3, List.mem_cons, List.not_mem_nil, or_false] at hc
  rcases hc with rfl | rfl | rfl
  · exact digitChar_isDecDigit _ (by omega)
  · exact digitChar_isDecDigit _ hmod1
  · exact digitChar_isDecDigit _ hmod

theorem pad4_digits (n : Nat) (h : n ≤ 9999) : ∀ c ∈ pad4 n, isDecDigit c = true := by
  intro c hc
  have hdiv : n / 1000 ≤ 9999 / 1000 := Nat.div_le_div_right h
  have hmod2 : (n / 100) % 10 < 10 := Nat.mod_lt _ (by norm_num)
  have hmod1 : (n / 10) % 10 < 10 := Nat.mod_lt _ (by norm_num)
  have hmod : n % 10 < 10 := Nat.mod_lt _ (by norm_num)
  simp only [pad4, List.mem_cons, List.not_mem_nil, or_false] at hc
  rcases hc with rfl | rfl | rfl | rfl
  · exact digitChar_isDecDigit _ (by omega)
  · exact digitChar_isDecDigit _ hmod2
  · exact digitChar_isDecDigit _ hmod1
  · exact digitChar_isDecDigit _ hmod

theorem rfc3339Millis_wellformed (t : UtcTimestamp) :
    isRfc3339MillisFormat (rfc3339Millis t) = true := by
  have e1 : consumeDigits 4 ((rfc3339Millis t).data) =
      some ('-' :: (pad2 t.month ++ '-' :: (pad2 t.day ++ 'T' ::
        (pad2 t.hour ++ ':' :: (pad2 t.minute ++ ':' ::
          (pad2 t.second ++ '.' :: (pad3 t.milli ++ ['Z']))))))) := by
    show consumeDigits 4 (pad4 t.year ++ _) = _
    exact consumeDigits_append _ _ (pad4_digits t.year t.year_le)
  have emo : ∀ r : List Char, consumeDigits 2 (pad2 t.month ++ r) = some r :=
    fun r => consumeDigits_append _ r (pad2_digits t.month (by have := t.month_le; omega))
  have eda : ∀ r : List Char, consumeDigits 2 (pad2 t.day ++ r) = some r :=
    fun r => consumeDigits_append _ r (pad2_digits t.day (by have := t.day_le; omega))
  have eho : ∀ r : List Char, consumeDigits 2 (pad2 t.hour ++ r) = some r :=
    fun r => consumeDigits_append _ r (pad2_digits t.hour (by have := t.hour_le; omega))
  have emi : ∀ r : List Char, consumeDigits 2 (pad2 t.minute ++ r) = some r :=
    fun r => consumeDigits_append _ r (pad2_digits t.minute (by have := t.minute_le; omega))
  have ese : ∀ r : List Char, consumeDigits 2 (pad2 t.second ++ r) = some r :=
    fun r => consumeDigits_append _ r (pad2_digits t.second (by have := t.second_le; omega))
  have ems : ∀ r : List Char, consumeDigits 3 (pad3 t.milli ++ r) = some r :=
    fun r => consumeDigits_append _ r (pad3_digits t.milli t.milli_le)
  simp [isRfc3339MillisFormat, e1, emo, eda, eho, emi, ese, ems, consumeChar_cons]

/- ===================== Claim C9 ===================== -/

/-- C9: parsing back the manifest that `generate_manifest` writes
yields exactly the settings and files that were passed in (an item
whose status is blank or whitespace-only is defaulted to "queued", all
others preserved), together with the assigned session id — a
well-formed v4 UUID — and a millisecond-precision RFC 3339 UTC
timestamp. -/
theorem generate_manifest_roundtrip (u : UuidV4Bytes) (t : UtcTimestamp)
    (provider model output_dir : String) (items : List QueueItem)
    (settings : TranscriptionSettings) (h : settings.max_retries ≤ 4294967295) :
    (decodeManifest (encodeManifest (generate_manifest (uuidV4String u) (rfc3339Millis t)
        provider model output_dir items settings)) =
      some (generate_manifest (uuidV4String u) (rfc3339Millis t) provider model
        output_dir items settings))
    ∧ (generate_manifest (uuidV4String u) (rfc3339Millis t) provider model output_dir
        items settings).settings = settings
    ∧ (generate_manifest (uuidV4String u) (rfc3339Millis t) provider model output_dir
        items settings).files = items.map (fun item =>
          ⟨item.id, item.path,
           if (rustTrim item.status).isEmpty then "queued" else item.status⟩)
    ∧ (generate_manifest (uuidV4String u) (rfc3339Millis t) provider model output_dir
        items settings).session_id = uuidV4String u
    ∧ isUuidV4Format (generate_manifest (uuidV4String u) (rfc3339Millis t) provider model
        output_dir items settings).session_id = true
    ∧ (generate_manifest (uuidV4String u) (rfc3339Millis t) provider model output_dir
        items settings).created_at = rfc3339Millis t
    ∧ isRfc3339MillisFormat (generate_manifest (uuidV4String u) (rfc3339Millis t) provider
        model output_dir items settings).created_at = true :=
  ⟨decodeManifest_encode _ h, rfl, rfl, rfl, uuidV4String_wellformed u, rfl,
   rfc3339Millis_wellformed t⟩

/-- Witness for C9 at a concrete generation request with a blank item
status. -/
theorem generate_manifest_roundtrip_witness :
    (sampleSettings.max_retries ≤ 4294967295) ∧
    decodeManifest (encodeManifest (generate_manifest (uuidV4String sampleUuidBytes)
        (rfc3339Millis sampleTimestamp) "coreml-local" "v3" "/out"
        [⟨"q1", "/audio/a.wav", "  "⟩] sampleSettings)) =
      some (generate_manifest (uuidV4String sampleUuidBytes)
        (rfc3339Millis sampleTimestamp) "coreml-local" "v3" "/out"
        [⟨"q1", "/audio/a.wav", "  "⟩] sampleSettings) :=
  ⟨by decide,
   (generate_manifest_roundtrip sampleUuidBytes sampleTimestamp "coreml-local" "v3" "/out"
     [⟨"q1", "/audio/a.wav", "  "⟩] sampleSettings (by decide)).1⟩
